import Mathlib

/-!
Verification of the survey normalization-and-scoring pipeline
(`data_loader.py`, `cleaning_nazifa.py`, `cleaning_aelyana.py`).

The embedding is row/cell-level: pandas column operations are modelled by
the per-cell functions they map over the column, a raw cell is an
`Option String` (`none` is a missing value, NaN), and a DataFrame is a
list of named columns.  Machine floats are modelled by `ℚ`; the float
values arising here (halves, tenths) are exactly representable, and
`round(_, 1)` is modelled by round-half-to-even at one decimal, the
rounding used by numpy/pandas.
-/

namespace SurveyPipeline

/-! ### Generic character/string helpers

`str.strip` is modelled on the whitespace characters that occur in this
data (space, tab, CR, LF); `str.lower` on ASCII letters; `re.findall`
for the digit patterns is modelled by explicit scanners over the
character list. -/

def trimL (l : List Char) : List Char :=
  ((l.dropWhile Char.isWhitespace).reverse.dropWhile Char.isWhitespace).reverse

/-- Python `str(x).strip()`. -/
def strTrim (s : String) : String := String.mk (trimL s.data)

def charLower (c : Char) : Char :=
  if c.toNat ≥ 65 ∧ c.toNat ≤ 90 then Char.ofNat (c.toNat + 32) else c

/-- Python `str.lower()` (ASCII letters; the survey wordings are ASCII
plus the en-dash, which has no case). -/
def strLower (s : String) : String := String.mk (s.data.map charLower)

/-- Python `s.replace("–", "-")`: en-dash to ASCII hyphen. -/
def dashToHyphen (s : String) : String :=
  String.mk (s.data.map (fun c => if c = '–' then '-' else c))

def startsWithL : List Char → List Char → Bool
  | [], _ => true
  | _ :: _, [] => false
  | p :: ps, c :: cs => p = c && startsWithL ps cs

def containsL (pat : List Char) : List Char → Bool
  | [] => pat.isEmpty
  | c :: cs => startsWithL pat (c :: cs) || containsL pat cs

/-- Python substring test `pat in s`. -/
def strContains (s pat : String) : Bool := containsL pat.data s.data

/-- Value of a list of decimal digit characters. -/
def natVal (l : List Char) : ℕ := l.foldl (fun n c => 10 * n + (c.toNat - 48)) 0

/-- Python `float(tok)` for a token matched by `\d+\.?\d*`:
digits, an optional dot, then (possibly zero) digits. -/
def parseDec (t : String) : ℚ :=
  match t.data.dropWhile Char.isDigit with
  | '.' :: frac =>
      ((natVal (t.data.takeWhile Char.isDigit) : ℕ) : ℚ)
        + ((natVal frac : ℕ) : ℚ) / (10 : ℚ) ^ frac.length
  | _ => ((natVal (t.data.takeWhile Char.isDigit) : ℕ) : ℚ)

/-- `re.findall(r"\d+\.?\d*", s)` as a left-to-right scan.  The state
holds the current partial token (reversed) and whether its optional dot
has been consumed. -/
def scanNums : List Char → Option (List Char × Bool) → List String
  | [], none => []
  | [], some st => [String.mk st.1.reverse]
  | c :: rest, none =>
      if c.isDigit then scanNums rest (some ([c], false))
      else scanNums rest none
  | c :: rest, some st =>
      if c.isDigit then scanNums rest (some (c :: st.1, st.2))
      else if c = '.' && !st.2 then scanNums rest (some ('.' :: st.1, true))
      else String.mk st.1.reverse :: scanNums rest none

/-- `re.findall(r"\d+", s)` as a left-to-right scan; the state holds the
current digit run (reversed). -/
def scanInts : List Char → List Char → List String
  | [], [] => []
  | [], a :: acc => [String.mk (a :: acc).reverse]
  | c :: rest, acc =>
      if c.isDigit then scanInts rest (c :: acc)
      else
        match acc with
        | [] => scanInts rest []
        | a :: acc2 => String.mk (a :: acc2).reverse :: scanInts rest []

/-- The decimal numbers embedded in `s`, in order of occurrence
(`[float(t) for t in re.findall(r"\d+\.?\d*", s)]`). -/
def numbersIn (s : String) : List ℚ := (scanNums s.data none).map parseDec

/-- The integers embedded in `s`, in order of occurrence
(`[float(t) for t in re.findall(r"\d+", s)]`). -/
def intsIn (s : String) : List ℚ := (scanInts s.data []).map parseDec

/-- `str()` applied to a cell, as `astype(str)` does columnwise: a
missing value renders as the string nan. -/
def cellStr : Option String → String
  | none => "nan"
  | some s => s

/-- Modelled from the spec: pandas `to_numeric(_, errors="coerce")` on a
raw text cell — the spec's "non-numeric quality ratings are coerced to
missing".  The library routine itself is not part of this repository;
it is modelled for plain optionally-signed decimal literals, everything
else coercing to missing. -/
def parseUnsigned (l : List Char) : Option ℚ :=
  match l.dropWhile Char.isDigit with
  | [] => if l.isEmpty then none else some ((natVal l : ℕ) : ℚ)
  | '.' :: frac =>
      if frac.all Char.isDigit && !(l.takeWhile Char.isDigit ++ frac).isEmpty then
        some (((natVal (l.takeWhile Char.isDigit) : ℕ) : ℚ)
          + ((natVal frac : ℕ) : ℚ) / (10 : ℚ) ^ frac.length)
      else none
  | _ => none

def toNum : Option String → Option ℚ
  | none => none
  | some s =>
      match (strTrim s).data with
      | '-' :: rest => (parseUnsigned rest).map (fun q => -q)
      | '+' :: rest => parseUnsigned rest
      | l => parseUnsigned l

/-! ### Rounding

`Series.round(1)` rounds half to even (numpy rounding).  The raw scores
arising here are never half-way at the second decimal, so the tie rule
is immaterial, but we embed it faithfully. -/

def roundTE (x : ℚ) : ℤ :=
  if x - (⌊x⌋ : ℚ) < 1/2 then ⌊x⌋
  else if 1/2 < x - (⌊x⌋ : ℚ) then ⌊x⌋ + 1
  else if 2 ∣ ⌊x⌋ then ⌊x⌋ else ⌊x⌋ + 1

/-- `round(x, 1)`. -/
def rnd1 (x : ℚ) : ℚ := ((roundTE (10 * x) : ℤ) : ℚ) / 10

end SurveyPipeline

namespace SurveyPipeline.DataLoader

/-! ### data_loader.py -/

/-- The text normalization of `_sleep_hours_to_estimate`
(data_loader.py line 43): `str(x).strip().lower().replace("–", "-")`. -/
def normText (x : String) : String := dashToHyphen (strLower (strTrim x))

/-- `_sleep_hours_to_estimate` (data_loader.py lines 39-59). -/
def _sleep_hours_to_estimate : Option String → Option ℚ
  | none => none
  | some x =>
      if strContains (normText x) ("more than") then
        match intsIn (normText x) with
        | n :: _ => some (n + 1/2)
        | [] => none
      else if strContains (normText x) ("less than") then
        match intsIn (normText x) with
        | n :: _ => some (n - 1/2)
        | [] => none
      else
        match intsIn (normText x) with
        | a :: b :: _ => some ((a + b) / 2)
        | [n] => some n
        | [] => none

/-- `_map_frequency_to_score` (data_loader.py lines 62-73):
`mapping.get(str(x).strip(), 0)`. -/
def _map_frequency_to_score (x : String) : ℕ :=
  match strTrim x with
  | "Never" => 0
  | "Rarely (1–2 times a week)" => 1
  | "Rarely (1-2 times a week)" => 1
  | "Sometimes (3–4 times a week)" => 2
  | "Sometimes (3-4 times a week)" => 2
  | "Often (5–6 times a week)" => 3
  | "Often (5-6 times a week)" => 3
  | "Always (every night)" => 4
  | _ => 0

/-- The enumerated variant list of `_map_frequency_to_score`, with the
score of each variant. -/
def freq_variants : List (String × ℕ) :=
  [(("Never"), 0),
   (("Rarely (1–2 times a week)"), 1),
   (("Rarely (1-2 times a week)"), 1),
   (("Sometimes (3–4 times a week)"), 2),
   (("Sometimes (3-4 times a week)"), 2),
   (("Often (5–6 times a week)"), 3),
   (("Often (5-6 times a week)"), 3),
   (("Always (every night)"), 4)]

/-- The quality-risk cell operation of `_calculate_isi`
(data_loader.py line 87): `(5 - q).clip(lower=0, upper=4).fillna(0)`. -/
def quality_risk : Option ℚ → ℚ
  | none => 0
  | some v => min (max ((5 : ℚ) - v) 0) 4

/-- `_calculate_isi` (data_loader.py lines 76-90), per row: the
difficulty and wake-up cells are `astype(str)`-converted then scored,
the quality cell is numerically coerced, and the 0-12 raw sum is
rescaled by `(raw / 12 * 28).round(1)`. -/
def _calculate_isi (d w q : Option String) : ℚ :=
  rnd1 ((((_map_frequency_to_score (cellStr d)
      + _map_frequency_to_score (cellStr w) : ℕ) : ℚ)
      + quality_risk (toNum q)) / 12 * 28)

/-- `row_risk`, the per-row body of `_calculate_lifestyle_risk`
(data_loader.py lines 94-115).  A missing column yields the empty
string via `row.get(_, "")` and a missing cell renders as nan; neither
contains any of the keywords. -/
def row_risk (device caffeine activity stress : String) : ℕ :=
  (if strContains device ("Always") then 3
   else if strContains device ("Often") then 2 else 0)
  + (if strContains caffeine ("Always") then 3
     else if strContains caffeine ("Often") then 2 else 0)
  + (if strContains activity ("Never") || strContains activity ("Rarely") then 2 else 0)
  + (if strContains stress ("Extremely") then 3
     else if strContains stress ("High") then 2 else 0)

end SurveyPipeline.DataLoader

namespace SurveyPipeline

/-! ### Tables

A DataFrame is a list of named columns over a shared row index; all
columns have the same length.  Raw cells are text or missing; derived
numeric cells are rationals or missing. -/

inductive Cell
  | txt (s : String)
  | num (q : ℚ)
  | na
deriving DecidableEq

abbrev Table : Type := List (String × List Cell)

/-- `df.columns`. -/
def headers (t : Table) : List String := t.map Prod.fst

/-- `df[name]` (the first column so named; pandas names are unique). -/
def getCol (t : Table) (name : String) : List Cell :=
  match t.find? (fun col => col.1 == name) with
  | some col => col.2
  | none => []

/-- Number of rows (`len(df)`): the length of the columns. -/
def nrows : Table → ℕ
  | [] => 0
  | col :: _ => col.2.length

/-- `df[name] = vals`: replace the column in place if present,
otherwise append it on the right. -/
def setCol (t : Table) (name : String) (vals : List Cell) : Table :=
  if (headers t).contains name then
    t.map (fun col => if col.1 == name then (col.1, vals) else col)
  else
    t ++ [(name, vals)]

end SurveyPipeline

namespace SurveyPipeline.Nazifa

/-! ### cleaning_nazifa.py -/

def wsLikeChar (c : Char) : Char :=
  if c.isWhitespace ∨ c = ' ' ∨ c = '\x0b' ∨ c = '\x0c' then ' ' else c

def squeezeSpaces : List Char → List Char
  | [] => []
  | [c] => [c]
  | c :: d :: rest =>
      if c = ' ' && d = ' ' then squeezeSpaces (d :: rest)
      else c :: squeezeSpaces (d :: rest)

/-- `_norm_col` (cleaning_nazifa.py lines 9-18; `_norm_col` of
cleaning_aelyana.py and `_norm_header` of data_loader.py are
identical): non-breaking spaces, newlines and tabs become spaces,
whitespace runs collapse to one space, ends are trimmed. -/
def _norm_col (s : String) : String :=
  String.mk (trimL (squeezeSpaces (s.data.map wsLikeChar)))

/-- The `mapping` dict of `_sleep_hours_to_est`
(cleaning_nazifa.py lines 28-42). -/
def sleep_mapping (x : String) : Option ℚ :=
  match x with
  | "Less than 4 hours" => some 3.5
  | "4–5 hours" => some 4.5
  | "4-5 hours" => some 4.5
  | "5–6 hours" => some 5.5
  | "5-6 hours" => some 5.5
  | "6–7 hours" => some 6.5
  | "6-7 hours" => some 6.5
  | "7–8 hours" => some 7.5
  | "7-8 hours" => some 7.5
  | "8–9 hours" => some 8.5
  | "8-9 hours" => some 8.5
  | "More than 8 hours" => some 8.5
  | "9 or more hours" => some 9.0
  | _ => none

/-- `_sleep_hours_to_est` (cleaning_nazifa.py lines 21-53): exact
lookup on the trimmed text, then the parse-and-average fallback. -/
def _sleep_hours_to_est : Option String → Option ℚ
  | none => none
  | some v =>
      match sleep_mapping (strTrim v) with
      | some h => some h
      | none =>
          match numbersIn (strTrim v) with
          | [n] => some n
          | a :: b :: _ => some ((a + b) / 2)
          | [] => none

/-- The `freq_map` dict of `_calculate_isi_like`
(cleaning_nazifa.py lines 64-70); applied via `.map(freq_map).fillna(0)`,
so any other text scores 0. -/
def freq_map (x : String) : ℕ :=
  match x with
  | "Never" => 0
  | "Rarely (1–2 times a week)" => 1
  | "Sometimes (3–4 times a week)" => 2
  | "Often (5–6 times a week)" => 3
  | "Always (every night)" => 4
  | _ => 0

/-- The `quality_points` dict of `_calculate_isi_like`
(cleaning_nazifa.py line 71); applied via `.map(_).fillna(0)`. -/
def quality_points (x : String) : ℕ :=
  match x with
  | "1" => 4
  | "2" => 3
  | "3" => 2
  | "4" => 1
  | "5" => 0
  | _ => 0

/-- `_calculate_isi_like` (cleaning_nazifa.py lines 56-79), per row:
all three cells are `astype(str)`-converted, scored by the dicts, and
the sum is rescaled by `(score / 12.0 * 28.0).round(1)`. -/
def _calculate_isi_like (d w q : Option String) : ℚ :=
  rnd1 ((((freq_map (cellStr d) + freq_map (cellStr w)
      + quality_points (cellStr q) : ℕ) : ℚ)) / 12 * 28)

/-- `_isi_category` (cleaning_nazifa.py lines 82-91). -/
def _isi_category : Option ℚ → Option String
  | none => none
  | some x =>
      if x < 8 then some ("No insomnia (0–7)")
      else if x < 15 then some ("Subthreshold (8–14)")
      else if x < 22 then some ("Moderate (15–21)")
      else some ("Severe (22–28)")

/-- The `SleepDurationCategory` cell operation
(cleaning_nazifa.py lines 157-161): `pd.cut` with right-closed bins
`(-inf, 5.99], (5.99, 8.0], (8.0, inf]`; a missing estimate stays
missing. -/
def sleepDurationCategory : Option ℚ → Option String
  | none => none
  | some h =>
      if h ≤ 5.99 then some ("Short (<6h)")
      else if h ≤ 8 then some ("Adequate (6–8h)")
      else some ("Long (>8h)")

/-- `rename_candidates` (cleaning_nazifa.py lines 117-129). -/
def rename_candidates : List (String × String) :=
  [(("Timestamp"), ("Timestamp")),
   (("What is your gender?"), ("Gender")),
   (("What is your age group?"), ("AgeGroup")),
   (("What is your year of study?"), ("YearOfStudy")),
   (("Which faculty are you currently enrolled in?"), ("Faculty")),
   (("How often do you have difficulty falling asleep at night?"), ("DifficultyFallingAsleep")),
   (("On average, how many hours of sleep do you get on a typical day?"), ("SleepHours")),
   (("How often do you wake up during the night and have trouble falling back asleep?"), ("NightWakeups")),
   (("How would you rate the overall quality of your sleep?"), ("SleepQuality")),
   (("At what time do you usually go to bed on weekdays?"), ("BedTime")),
   (("Do you usually nap during the day?"), ("DayNap"))]

/-- `_sleep_hours_to_est` lifted to a cell: `pd.isna` catches a missing
cell; a numeric cell `str()`-roundtrips through its decimal rendering,
from which the single-number fallback recovers the value itself. -/
def estCell : Cell → Cell
  | Cell.na => Cell.na
  | Cell.txt s =>
      match _sleep_hours_to_est (some s) with
      | some q => Cell.num q
      | none => Cell.na
  | Cell.num q => Cell.num q

/-- The `SleepHours_est` stage of `prepare_nazifa_data`
(cleaning_nazifa.py lines 144-148): if `SleepHours` is present the
estimator is applied to it, otherwise the stage assigns the scalar
`np.nan`, which broadcasts to an all-missing column. -/
def sleepHoursStage (t : Table) : Table :=
  if (headers t).contains ("SleepHours") then
    setCol t ("SleepHours_est") ((getCol t ("SleepHours")).map estCell)
  else
    setCol t ("SleepHours_est") (List.replicate (nrows t) Cell.na)

end SurveyPipeline.Nazifa

namespace SurveyPipeline.Aelyana

/-! ### cleaning_aelyana.py -/

/-- `_map_freq` (cleaning_aelyana.py lines 24-48):
`mapping.get(str(x).strip(), 0)`. -/
def _map_freq (x : String) : ℕ :=
  match strTrim x with
  | "Never" => 0
  | "Rarely (1–2 times a month)" => 1
  | "Rarely (1–2 times a week)" => 1
  | "Rarely (1-2 times a month)" => 1
  | "Rarely (1-2 times a week)" => 1
  | "Rarely" => 1
  | "Occasionally" => 2
  | "Sometimes (3–4 times a week)" => 2
  | "Sometimes (3-4 times a week)" => 2
  | "Sometimes" => 2
  | "Frequently" => 3
  | "Often (5–6 times a week)" => 3
  | "Often (5-6 times a week)" => 3
  | "Often" => 3
  | "Always (every night)" => 4
  | "Always" => 4
  | _ => 0

/-- The enumerated variant list of `_map_freq`, with the score of each
variant. -/
def freq_variants : List (String × ℕ) :=
  [(("Never"), 0),
   (("Rarely (1–2 times a month)"), 1),
   (("Rarely (1–2 times a week)"), 1),
   (("Rarely (1-2 times a month)"), 1),
   (("Rarely (1-2 times a week)"), 1),
   (("Rarely"), 1),
   (("Occasionally"), 2),
   (("Sometimes (3–4 times a week)"), 2),
   (("Sometimes (3-4 times a week)"), 2),
   (("Sometimes"), 2),
   (("Frequently"), 3),
   (("Often (5–6 times a week)"), 3),
   (("Often (5-6 times a week)"), 3),
   (("Often"), 3),
   (("Always (every night)"), 4),
   (("Always"), 4)]

/-- The `mapping` dict of `_sleep_hours_to_est`
(cleaning_aelyana.py lines 61-76). -/
def sleep_mapping (x : String) : Option ℚ :=
  match x with
  | "Less than 4 hours" => some 3.5
  | "Less than 5 hours" => some 4.5
  | "4–5 hours" => some 4.5
  | "4-5 hours" => some 4.5
  | "5–6 hours" => some 5.5
  | "5-6 hours" => some 5.5
  | "6–7 hours" => some 6.5
  | "6-7 hours" => some 6.5
  | "7–8 hours" => some 7.5
  | "7-8 hours" => some 7.5
  | "8–9 hours" => some 8.5
  | "8-9 hours" => some 8.5
  | "More than 8 hours" => some 9.0
  | "9 or more hours" => some 9.0
  | _ => none

/-- `_sleep_hours_to_est` (cleaning_aelyana.py lines 51-87): exact
lookup on the trimmed text, then the parse-and-average fallback on the
en-dash-normalized text. -/
def _sleep_hours_to_est : Option String → Option ℚ
  | none => none
  | some v =>
      match sleep_mapping (strTrim v) with
      | some h => some h
      | none =>
          match numbersIn (dashToHyphen (strTrim v)) with
          | [n] => some n
          | a :: b :: _ => some ((a + b) / 2)
          | [] => none

/-- `rename_candidates` (cleaning_aelyana.py lines 122-135). -/
def rename_candidates : List (String × String) :=
  [(("Timestamp"), ("Timestamp")),
   (("How often do you have difficulty falling asleep at night?"), ("DifficultyFallingAsleep")),
   (("How often do you wake up during the night and have trouble falling back asleep?"), ("NightWakeups")),
   (("How would you rate the overall quality of your sleep?"), ("SleepQuality")),
   (("How often do you feel fatigued during the day, affecting your ability to study or attend classes?"), ("DaytimeFatigue")),
   (("On average, how many hours of sleep do you get on a typical day?"), ("SleepHours")),
   (("How often do you experience difficulty concentrating during lectures or studying due to lack of sleep?"), ("ConcentrationDifficulty")),
   (("How often do you miss or skip classes due to sleep-related issues (e.g., insomnia, feeling tired)?"), ("MissedClasses")),
   (("How would you describe the impact of insufficient sleep on your ability to complete assignments and meet deadlines?"), ("AssignmentImpact")),
   (("How would you rate your overall academic performance (GPA or grades) in the past semester?"), ("AcademicPerformance")),
   (("What is your GPA range for the most recent semester?"), ("GPA")),
   (("What is your CGPA range for the most recent semester?"), ("CGPA"))]

/-- `_sleep_hours_to_est` lifted to a cell (as in the Nazifa module). -/
def estCell : Cell → Cell
  | Cell.na => Cell.na
  | Cell.txt s =>
      match _sleep_hours_to_est (some s) with
      | some q => Cell.num q
      | none => Cell.na
  | Cell.num q => Cell.num q

/-- The `SleepHours_est` stage of `prepare_aelyana_data`
(cleaning_aelyana.py lines 176-177): the column is produced only when
`SleepHours` exists and `SleepHours_est` does not; otherwise the table
is left untouched. -/
def sleepHoursStage (t : Table) : Table :=
  if (headers t).contains ("SleepHours") && !((headers t).contains ("SleepHours_est")) then
    setCol t ("SleepHours_est") ((getCol t ("SleepHours")).map estCell)
  else t

end SurveyPipeline.Aelyana

namespace SurveyPipeline

/-! ### The schema-mapping step

Both `prepare_nazifa_data` (lines 131-138) and `prepare_aelyana_data`
(lines 137-144) build a rename dictionary from their candidate list —
a candidate `(long, short)` contributes `norm(long) → short` exactly
when `short` is not already a column and `norm(long)` is — and then
rename the columns through it. -/

def renameTarget (cand : List (String × String)) (cols : List String) (c : String) : String :=
  match cand.find? (fun p =>
      Nazifa._norm_col p.1 == c
        && !(cols.contains p.2)
        && cols.contains (Nazifa._norm_col p.1)) with
  | some p => p.2
  | none => c

/-- The rename applied to the header row alone. -/
def mapHeaders (cand : List (String × String)) (cols : List String) : List String :=
  cols.map (renameTarget cand cols)

/-- The rename applied to a table: column names change, cell data is
untouched, no column is dropped. -/
def schemaMap (cand : List (String × String)) (t : Table) : Table :=
  t.map (fun col => (renameTarget cand (headers t) col.1, col.2))

/-- Soundness condition on a candidate list: whenever the normalized
long key of one candidate coincides with the short name of another
(here only `Timestamp`), the first candidate maps it to itself. -/
def candOK (cand : List (String × String)) : Bool :=
  cand.all (fun q => cand.all (fun p =>
    !(Nazifa._norm_col q.1 == p.2) || (q.2 == p.2)))

/-- The formula claim C1 states for the rescaled index: the two
frequency scores plus the clip-inverted quality risk, rescaled by
`round(raw / 12 * 28, 1)`.  Stated from the claim for comparison with
the two implementations. -/
def claimedIsiFormula (dScore wScore : ℕ) (q : Option ℚ) : ℚ :=
  rnd1 ((((dScore + wScore : ℕ) : ℚ) + DataLoader.quality_risk q) / 12 * 28)

/-! ### Helper lemmas: rounding -/

theorem roundTE_le (x : ℚ) : (roundTE x : ℚ) ≤ x + 1/2 := by
  have hfl := Int.floor_le x
  have hceil := Int.lt_floor_add_one x
  unfold roundTE
  split_ifs <;> push_cast <;> linarith

theorem le_roundTE (x : ℚ) : x - 1/2 ≤ (roundTE x : ℚ) := by
  have hfl := Int.floor_le x
  have hceil := Int.lt_floor_add_one x
  unfold roundTE
  split_ifs <;> push_cast <;> linarith

theorem rnd1_bounds {x : ℚ} (h0 : 0 ≤ x) (h28 : x ≤ 28) :
    0 ≤ rnd1 x ∧ rnd1 x ≤ 28 := by
  have ha := roundTE_le (10 * x)
  have hb := le_roundTE (10 * x)
  unfold rnd1
  constructor
  · have h1 : (-1 : ℤ) < roundTE (10 * x) := by
      by_contra hcon
      push_neg at hcon
      have h2 : ((roundTE (10 * x) : ℤ) : ℚ) ≤ -1 := by exact_mod_cast hcon
      linarith
    have h2 : (0 : ℤ) ≤ roundTE (10 * x) := by omega
    have h3 : (0 : ℚ) ≤ ((roundTE (10 * x) : ℤ) : ℚ) := by exact_mod_cast h2
    linarith
  · have h1 : roundTE (10 * x) < 281 := by
      by_contra hcon
      push_neg at hcon
      have h2 : (281 : ℚ) ≤ ((roundTE (10 * x) : ℤ) : ℚ) := by exact_mod_cast hcon
      linarith
    have h2 : roundTE (10 * x) ≤ 280 := by omega
    have h3 : ((roundTE (10 * x) : ℤ) : ℚ) ≤ 280 := by exact_mod_cast h2
    linarith

theorem rnd1_low {x : ℚ} {n : ℤ} (hf : ⌊10 * x⌋ = n)
    (hlt : 10 * x - (n : ℚ) < 1/2) : rnd1 x = (n : ℚ) / 10 := by
  unfold rnd1 roundTE
  rw [hf, if_pos hlt]

theorem rnd1_high {x : ℚ} {n : ℤ} (hf : ⌊10 * x⌋ = n)
    (hgt : 1/2 < 10 * x - (n : ℚ)) : rnd1 x = ((n : ℚ) + 1) / 10 := by
  unfold rnd1 roundTE
  rw [hf, if_neg (by linarith), if_pos hgt]
  push_cast
  ring

theorem isi_scale_bounds {raw : ℚ} (h0 : 0 ≤ raw) (h12 : raw ≤ 12) :
    0 ≤ rnd1 (raw / 12 * 28) ∧ rnd1 (raw / 12 * 28) ≤ 28 :=
  rnd1_bounds (by linarith) (by linarith)

theorem rnd1_of_zero : rnd1 (0 : ℚ) = 0 := by
  have hf : ⌊(10 : ℚ) * 0⌋ = 0 := by
    rw [Int.floor_eq_iff]
    norm_num
  rw [rnd1_low hf (by norm_num)]
  norm_num

theorem rnd1_of_28 : rnd1 (28 : ℚ) = 28 := by
  have hf : ⌊(10 : ℚ) * 28⌋ = 280 := by
    rw [Int.floor_eq_iff]
    norm_num
  rw [rnd1_low hf (by norm_num)]
  norm_num

theorem rnd1_of_third : rnd1 ((28 : ℚ)/3) = 93/10 := by
  have hf : ⌊(10 : ℚ) * (28/3)⌋ = 93 := by
    rw [Int.floor_eq_iff]
    norm_num
  rw [rnd1_low hf (by norm_num)]
  norm_num

/-! ### Helper lemmas: score ranges -/

theorem map_frequency_le (x : String) : DataLoader._map_frequency_to_score x ≤ 4 := by
  unfold DataLoader._map_frequency_to_score
  split <;> omega

theorem freq_map_le (x : String) : Nazifa.freq_map x ≤ 4 := by
  unfold Nazifa.freq_map
  split <;> omega

theorem quality_points_le (x : String) : Nazifa.quality_points x ≤ 4 := by
  unfold Nazifa.quality_points
  split <;> omega

theorem quality_risk_nonneg (q : Option ℚ) : 0 ≤ DataLoader.quality_risk q := by
  unfold DataLoader.quality_risk
  cases q with
  | none => norm_num
  | some v => exact le_min (le_max_right _ _) (by norm_num)

theorem quality_risk_le (q : Option ℚ) : DataLoader.quality_risk q ≤ 4 := by
  unfold DataLoader.quality_risk
  cases q with
  | none => norm_num
  | some v => exact min_le_right _ _

/-! ### Helper lemmas: tables -/

theorem headers_setCol_present (t : Table) (name : String) (vals : List Cell)
    (hc : (headers t).contains name = true) :
    headers (setCol t name vals) = headers t := by
  unfold setCol
  rw [if_pos hc]
  unfold headers
  rw [List.map_map]
  apply List.map_congr_left
  intro col _
  by_cases h2 : col.1 = name <;> simp [h2]

theorem mem_headers_setCol (t : Table) (name : String) (vals : List Cell) :
    name ∈ headers (setCol t name vals) := by
  by_cases hc : (headers t).contains name = true
  · rw [headers_setCol_present t name vals hc]
    rwa [List.contains, List.elem_iff] at hc
  · unfold setCol
    rw [if_neg hc]
    unfold headers
    rw [List.map_append]
    simp

theorem getCol_append_single (t : Table) (name : String) (vals : List Cell)
    (h : name ∉ headers t) : getCol (t ++ [(name, vals)]) name = vals := by
  induction t with
  | nil =>
      simp [getCol, List.find?]
  | cons col rest ih =>
      have h1 : ¬(col.1 = name) := by
        intro he
        exact h (by simp [headers, he])
      have h2 : name ∉ headers rest := by
        intro he
        exact h (by simp [headers] at he ⊢; exact Or.inr he)
      unfold getCol
      rw [List.cons_append, List.find?_cons_of_neg _ (by simp [h1])]
      have := ih h2
      unfold getCol at this
      exact this

theorem getCol_setCol_absent (t : Table) (name : String) (vals : List Cell)
    (h : name ∉ headers t) : getCol (setCol t name vals) name = vals := by
  unfold setCol
  rw [if_neg (by simp [List.contains, List.elem_eq_mem, h])]
  exact getCol_append_single t name vals h

theorem getCol_map_replace (t : Table) (name : String) (vals : List Cell)
    (h : name ∈ headers t) :
    getCol (t.map (fun col => if col.1 == name then (col.1, vals) else col)) name
      = vals := by
  induction t with
  | nil => simp [headers] at h
  | cons col rest ih =>
      by_cases hcol : col.1 = name
      · unfold getCol
        rw [List.map_cons, List.find?_cons_of_pos _ (by simp [hcol])]
        simp [hcol]
      · have h2 : name ∈ headers rest := by
          simp [headers] at h
          rcases h with h | h
          · exact absurd h.symm hcol
          · simpa [headers] using h
        unfold getCol
        rw [List.map_cons, List.find?_cons_of_neg _ (by simp [hcol])]
        have h3 := ih h2
        unfold getCol at h3
        exact h3

theorem getCol_setCol (t : Table) (name : String) (vals : List Cell) :
    getCol (setCol t name vals) name = vals := by
  by_cases hc : (headers t).contains name = true
  · unfold setCol
    rw [if_pos hc]
    exact getCol_map_replace t name vals (by rwa [List.contains, List.elem_iff] at hc)
  · have h : name ∉ headers t := by
      intro hm
      exact hc (by rw [List.contains, List.elem_iff]; exact hm)
    exact getCol_setCol_absent t name vals h

/-! ### Helper lemmas: schema mapping -/

theorem candOK_spec {cand : List (String × String)} (h : candOK cand = true) :
    ∀ q ∈ cand, ∀ p ∈ cand, Nazifa._norm_col q.1 = p.2 → q.2 = p.2 := by
  intro q hq p hp heq
  unfold candOK at h
  rw [List.all_eq_true] at h
  have h2 := h q hq
  rw [List.all_eq_true] at h2
  have h3 := h2 p hp
  simp only [Bool.or_eq_true, Bool.not_eq_true', beq_eq_false_iff_ne, ne_eq,
    beq_iff_eq] at h3
  rcases h3 with h3 | h3
  · exact absurd heq h3
  · exact h3

theorem renameTarget_fixed_of_short {cand : List (String × String)}
    (hOK : candOK cand = true) (cols : List String) (s : String)
    (hshort : ∃ p ∈ cand, p.2 = s) (hmem : s ∈ cols) :
    renameTarget cand cols s = s := by
  unfold renameTarget
  cases hfind : cand.find? (fun p => Nazifa._norm_col p.1 == s
      && !(cols.contains p.2) && cols.contains (Nazifa._norm_col p.1)) with
  | none => rfl
  | some q =>
    exfalso
    have hqmem := List.mem_of_find?_eq_some hfind
    have hqpred := List.find?_some hfind
    simp only [Bool.and_eq_true, beq_iff_eq, Bool.not_eq_true', List.contains,
      List.elem_eq_mem, decide_eq_false_iff_not, decide_eq_true_eq] at hqpred
    obtain ⟨⟨hq1, hq2⟩, _⟩ := hqpred
    obtain ⟨p, hp, hps⟩ := hshort
    have hq3 := candOK_spec hOK q hqmem p hp (hps ▸ hq1)
    rw [hq3, hps] at hq2
    exact hq2 hmem

theorem renameTarget_idem {cand : List (String × String)}
    (hOK : candOK cand = true) (cols : List String) (c : String) (hc : c ∈ cols) :
    renameTarget cand (mapHeaders cand cols) (renameTarget cand cols c)
      = renameTarget cand cols c := by
  cases hfind : cand.find? (fun p => Nazifa._norm_col p.1 == c
      && !(cols.contains p.2) && cols.contains (Nazifa._norm_col p.1)) with
  | some q =>
    have hq1 : renameTarget cand cols c = q.2 := by unfold renameTarget; rw [hfind]
    rw [hq1]
    have hqmem := List.mem_of_find?_eq_some hfind
    unfold renameTarget
    cases hfind2 : cand.find? (fun p => Nazifa._norm_col p.1 == q.2
        && !((mapHeaders cand cols).contains p.2)
        && (mapHeaders cand cols).contains (Nazifa._norm_col p.1)) with
    | none => rfl
    | some r =>
      exfalso
      have hrmem := List.mem_of_find?_eq_some hfind2
      have hrpred := List.find?_some hfind2
      simp only [Bool.and_eq_true, beq_iff_eq, Bool.not_eq_true', List.contains,
        List.elem_eq_mem, decide_eq_false_iff_not, decide_eq_true_eq] at hrpred
      obtain ⟨⟨hr1, hr2⟩, hr3⟩ := hrpred
      have hr4 := candOK_spec hOK r hrmem q hqmem hr1
      rw [hr1] at hr3
      rw [hr4] at hr2
      exact hr2 hr3
  | none =>
    have hc1 : renameTarget cand cols c = c := by unfold renameTarget; rw [hfind]
    rw [hc1]
    unfold renameTarget
    cases hfind2 : cand.find? (fun p => Nazifa._norm_col p.1 == c
        && !((mapHeaders cand cols).contains p.2)
        && (mapHeaders cand cols).contains (Nazifa._norm_col p.1)) with
    | none => rfl
    | some r =>
      exfalso
      have hrmem := List.mem_of_find?_eq_some hfind2
      have hrpred := List.find?_some hfind2
      simp only [Bool.and_eq_true, beq_iff_eq, Bool.not_eq_true', List.contains,
        List.elem_eq_mem, decide_eq_false_iff_not, decide_eq_true_eq] at hrpred
      obtain ⟨⟨hr1, hr2⟩, _⟩ := hrpred
      have hnone := List.find?_eq_none.mp hfind
      have hr5 := hnone r hrmem
      simp only [Bool.and_eq_true, beq_iff_eq, Bool.not_eq_true', List.contains,
        List.elem_eq_mem, decide_eq_false_iff_not, decide_eq_true_eq, not_and] at hr5
      have hr6 : r.2 ∈ cols := by
        by_contra habs
        exact (hr5 ⟨hr1, habs⟩) (hr1 ▸ hc)
      have hfix := renameTarget_fixed_of_short hOK cols r.2 ⟨r, hrmem, rfl⟩ hr6
      have hr7 : r.2 ∈ mapHeaders cand cols := by
        unfold mapHeaders
        have h8 := List.mem_map_of_mem (renameTarget cand cols) hr6
        rw [hfix] at h8
        exact h8
      exact hr2 hr7

theorem headers_schemaMap (cand : List (String × String)) (t : Table) :
    headers (schemaMap cand t) = mapHeaders cand (headers t) := by
  unfold headers schemaMap mapHeaders
  rw [List.map_map, List.map_map]
  rfl

theorem schemaMap_idem {cand : List (String × String)}
    (hOK : candOK cand = true) (t : Table) :
    schemaMap cand (schemaMap cand t) = schemaMap cand t := by
  show (schemaMap cand t).map
      (fun col => (renameTarget cand (headers (schemaMap cand t)) col.1, col.2))
    = schemaMap cand t
  rw [headers_schemaMap]
  show (t.map (fun col => (renameTarget cand (headers t) col.1, col.2))).map
      (fun col => (renameTarget cand (mapHeaders cand (headers t)) col.1, col.2))
    = t.map (fun col => (renameTarget cand (headers t) col.1, col.2))
  rw [List.map_map]
  apply List.map_congr_left
  intro col hcol
  have hmem : col.1 ∈ headers t := List.mem_map_of_mem Prod.fst hcol
  have hidem := renameTarget_idem hOK (headers t) col.1 hmem
  simp only [Function.comp]
  rw [hidem]

theorem candOK_nazifa : candOK Nazifa.rename_candidates = true := by decide

theorem candOK_aelyana : candOK Aelyana.rename_candidates = true := by decide

/-! ### Claim theorems -/

/-- C2: for every row, `row_risk` is the sum of the four
keyword-containment weights — device-usage contains Always → 3, else
contains Often → 2, else 0; likewise caffeine; physical activity
contains Never or Rarely → 2, else 0; stress contains Extremely → 3,
else contains High → 2, else 0 — and, being a natural number, lies in
[0, 11]; the extremes 11 and 0 are attained. -/
theorem lifestyle_risk_weights :
    (∀ device caffeine activity stress : String,
      DataLoader.row_risk device caffeine activity stress =
        (if strContains device ("Always") then 3
         else if strContains device ("Often") then 2 else 0)
        + (if strContains caffeine ("Always") then 3
           else if strContains caffeine ("Often") then 2 else 0)
        + (if strContains activity ("Never") || strContains activity ("Rarely") then 2 else 0)
        + (if strContains stress ("Extremely") then 3
           else if strContains stress ("High") then 2 else 0)
      ∧ DataLoader.row_risk device caffeine activity stress ≤ 11)
    ∧ DataLoader.row_risk ("Always") ("Always (every day)") ("Never") ("Extremely High") = 11
    ∧ DataLoader.row_risk ("Sometimes") ("Occasionally") ("Daily") ("Low") = 0 := by
  refine ⟨fun device caffeine activity stress => ⟨rfl, ?_⟩, by decide, by decide⟩
  unfold DataLoader.row_risk
  split_ifs <;> omega

/-- C3: the 0-28 categorizer maps a missing index to a missing label
and every finite index to exactly one band by the closed-open bands
`x < 8`, `8 ≤ x < 15`, `15 ≤ x < 22`, `22 ≤ x`; in particular the
boundary 8.0 lands in Subthreshold and 15.0 in Moderate. -/
theorem isi_category_bands :
    Nazifa._isi_category none = none
    ∧ (∀ x : ℚ, x < 8 →
        Nazifa._isi_category (some x) = some ("No insomnia (0–7)"))
    ∧ (∀ x : ℚ, 8 ≤ x → x < 15 →
        Nazifa._isi_category (some x) = some ("Subthreshold (8–14)"))
    ∧ (∀ x : ℚ, 15 ≤ x → x < 22 →
        Nazifa._isi_category (some x) = some ("Moderate (15–21)"))
    ∧ (∀ x : ℚ, 22 ≤ x →
        Nazifa._isi_category (some x) = some ("Severe (22–28)"))
    ∧ Nazifa._isi_category (some 8) = some ("Subthreshold (8–14)")
    ∧ Nazifa._isi_category (some 15) = some ("Moderate (15–21)") := by
  refine ⟨rfl, ?_, ?_, ?_, ?_, ?_, ?_⟩
  · intro x h1
    simp only [Nazifa._isi_category]
    rw [if_pos h1]
  · intro x h1 h2
    simp only [Nazifa._isi_category]
    rw [if_neg (not_lt.mpr h1), if_pos h2]
  · intro x h1 h2
    simp only [Nazifa._isi_category]
    rw [if_neg (not_lt.mpr (by linarith)), if_neg (not_lt.mpr h1), if_pos h2]
  · intro x h1
    simp only [Nazifa._isi_category]
    rw [if_neg (not_lt.mpr (by linarith)), if_neg (not_lt.mpr (by linarith)),
      if_neg (not_lt.mpr h1)]
  · simp only [Nazifa._isi_category]
    norm_num
  · simp only [Nazifa._isi_category]
    norm_num

/-- Witness for C3: the four bands and the two boundary indices at
concrete inputs. -/
theorem isi_category_bands_witness :
    Nazifa._isi_category (some 3) = some ("No insomnia (0–7)")
    ∧ Nazifa._isi_category (some 10) = some ("Subthreshold (8–14)")
    ∧ Nazifa._isi_category (some 20) = some ("Moderate (15–21)")
    ∧ Nazifa._isi_category (some 25) = some ("Severe (22–28)") :=
  ⟨isi_category_bands.2.1 3 (by norm_num),
   isi_category_bands.2.2.1 10 (by norm_num) (by norm_num),
   isi_category_bands.2.2.2.1 20 (by norm_num) (by norm_num),
   isi_category_bands.2.2.2.2.1 25 (by norm_num)⟩

/-- C7: each of the two cited frequency encoders maps every variant of
its own enumerated list to that level's score after trimming (Never 0;
Rarely and its parenthesized en-dash/hyphen variants 1;
Sometimes/Occasionally 2; Often/Frequently 3; Always 4), and any text
whose trimmed form is not in the encoder's list — including junk,
empty, or the nan rendering of a missing cell — maps to 0. -/
theorem freq_encoder_variants :
    (∀ p ∈ Aelyana.freq_variants, Aelyana._map_freq p.1 = p.2)
    ∧ (∀ p ∈ DataLoader.freq_variants,
        DataLoader._map_frequency_to_score p.1 = p.2)
    ∧ Aelyana._map_freq ("  Always  ") = 4
    ∧ DataLoader._map_frequency_to_score ("  Always (every night)  ") = 4
    ∧ (∀ s : String, strTrim s ∉ Aelyana.freq_variants.map Prod.fst →
        Aelyana._map_freq s = 0)
    ∧ (∀ s : String, strTrim s ∉ DataLoader.freq_variants.map Prod.fst →
        DataLoader._map_frequency_to_score s = 0) := by
  refine ⟨by decide, by decide, by decide, by decide, ?_, ?_⟩
  · intro s hs
    unfold Aelyana._map_freq
    split
    case _ => rfl
    all_goals
      rename_i heq
      first
      | rfl
      | exact absurd (show strTrim s ∈ Aelyana.freq_variants.map Prod.fst by
          rw [heq]; decide) hs
  · intro s hs
    unfold DataLoader._map_frequency_to_score
    split
    case _ => rfl
    all_goals
      rename_i heq
      first
      | rfl
      | exact absurd (show strTrim s ∈ DataLoader.freq_variants.map Prod.fst by
          rw [heq]; decide) hs

/-- Witness for C7: a listed variant of each encoder scores as claimed,
and an unlisted text scores 0. -/
theorem freq_encoder_variants_witness :
    Aelyana._map_freq ("Occasionally") = 2
    ∧ DataLoader._map_frequency_to_score ("Rarely (1-2 times a week)") = 1
    ∧ Aelyana._map_freq ("total junk") = 0
    ∧ DataLoader._map_frequency_to_score ("nan") = 0 :=
  ⟨freq_encoder_variants.1 ((("Occasionally"), 2)) (by decide),
   freq_encoder_variants.2.1 ((("Rarely (1-2 times a week)"), 1)) (by decide),
   freq_encoder_variants.2.2.2.2.1 ("total junk") (by decide),
   freq_encoder_variants.2.2.2.2.2 ("nan") (by decide)⟩

/-- C8 counterexample: the cut point of the duration categorizer is
5.99, not 6 — the estimate 5.995 is below 6 yet is categorized
Adequate, where the claim requires the Short label. -/
theorem sleep_duration_counterexample :
    ((5.995 : ℚ) < 6)
    ∧ Nazifa.sleepDurationCategory (some (5.995 : ℚ)) = some ("Adequate (6–8h)")
    ∧ some ("Adequate (6–8h)") ≠ some ("Short (<6h)") := by
  refine ⟨by norm_num, ?_, by decide⟩
  simp only [Nazifa.sleepDurationCategory]
  rw [if_neg (by norm_num), if_pos (by norm_num)]

/-- C8 (amended): the duration categorizer buckets a finite estimate
`e` by the right-closed bins `e ≤ 5.99` Short, `5.99 < e ≤ 8` Adequate,
`8 < e` Long (so 5.99 < e < 6 is already Adequate); both boundaries 6.0
and 8.0 land in Adequate, and a missing estimate stays missing. -/
theorem sleep_duration_bands :
    (∀ e : ℚ, e ≤ 5.99 →
      Nazifa.sleepDurationCategory (some e) = some ("Short (<6h)"))
    ∧ (∀ e : ℚ, 5.99 < e → e ≤ 8 →
        Nazifa.sleepDurationCategory (some e) = some ("Adequate (6–8h)"))
    ∧ (∀ e : ℚ, 8 < e →
        Nazifa.sleepDurationCategory (some e) = some ("Long (>8h)"))
    ∧ Nazifa.sleepDurationCategory (some 6) = some ("Adequate (6–8h)")
    ∧ Nazifa.sleepDurationCategory (some 8) = some ("Adequate (6–8h)")
    ∧ Nazifa.sleepDurationCategory none = none := by
  refine ⟨?_, ?_, ?_, ?_, ?_, rfl⟩
  · intro e h1
    simp only [Nazifa.sleepDurationCategory]
    rw [if_pos h1]
  · intro e h1 h2
    simp only [Nazifa.sleepDurationCategory]
    rw [if_neg (not_le.mpr h1), if_pos h2]
  · intro e h1
    simp only [Nazifa.sleepDurationCategory]
    rw [if_neg (not_le.mpr (by linarith)), if_neg (not_le.mpr h1)]
  · simp only [Nazifa.sleepDurationCategory]
    norm_num
  · simp only [Nazifa.sleepDurationCategory]
    norm_num

/-- Witness for C8 (amended): the three bands at concrete estimates. -/
theorem sleep_duration_bands_witness :
    Nazifa.sleepDurationCategory (some 5) = some ("Short (<6h)")
    ∧ Nazifa.sleepDurationCategory (some 7) = some ("Adequate (6–8h)")
    ∧ Nazifa.sleepDurationCategory (some 9) = some ("Long (>8h)") :=
  ⟨sleep_duration_bands.1 5 (by norm_num),
   sleep_duration_bands.2.1 7 (by norm_num) (by norm_num),
   sleep_duration_bands.2.2.1 9 (by norm_num)⟩

/-- C4: whenever the trimmed duration text misses the curated lookup of
either cleaning module, the estimator returns the single embedded
decimal number, the mean of the first two of several, or missing when
there is none; e.g. Around 5 hours gives 5, a bare 6-7 range gives 6.5,
and a number-free text gives missing. -/
theorem duration_fallback :
    (∀ s : String, Nazifa.sleep_mapping (strTrim s) = none →
      (numbersIn (strTrim s) = [] → Nazifa._sleep_hours_to_est (some s) = none)
      ∧ (∀ n, numbersIn (strTrim s) = [n] →
          Nazifa._sleep_hours_to_est (some s) = some n)
      ∧ (∀ a b l, numbersIn (strTrim s) = a :: b :: l →
          Nazifa._sleep_hours_to_est (some s) = some ((a + b) / 2)))
    ∧ (∀ s : String, Aelyana.sleep_mapping (strTrim s) = none →
      (numbersIn (dashToHyphen (strTrim s)) = [] →
          Aelyana._sleep_hours_to_est (some s) = none)
      ∧ (∀ n, numbersIn (dashToHyphen (strTrim s)) = [n] →
          Aelyana._sleep_hours_to_est (some s) = some n)
      ∧ (∀ a b l, numbersIn (dashToHyphen (strTrim s)) = a :: b :: l →
          Aelyana._sleep_hours_to_est (some s) = some ((a + b) / 2)))
    ∧ Nazifa._sleep_hours_to_est (some ("Around 5 hours")) = some 5
    ∧ Nazifa._sleep_hours_to_est (some ("6-7")) = some (13/2)
    ∧ Aelyana._sleep_hours_to_est (some ("6–7")) = some (13/2)
    ∧ Nazifa._sleep_hours_to_est (some ("whenever I can")) = none := by
  refine ⟨?_, ?_, ?_, ?_, ?_, ?_⟩
  · intro s hmiss
    refine ⟨fun h0 => ?_, fun n hn => ?_, fun a b l habl => ?_⟩
    · simp [Nazifa._sleep_hours_to_est, hmiss, h0]
    · simp [Nazifa._sleep_hours_to_est, hmiss, hn]
    · simp [Nazifa._sleep_hours_to_est, hmiss, habl]
  · intro s hmiss
    refine ⟨fun h0 => ?_, fun n hn => ?_, fun a b l habl => ?_⟩
    · simp [Aelyana._sleep_hours_to_est, hmiss, h0]
    · simp [Aelyana._sleep_hours_to_est, hmiss, hn]
    · simp [Aelyana._sleep_hours_to_est, hmiss, habl]
  · have h1 : Nazifa.sleep_mapping (strTrim ("Around 5 hours")) = none := rfl
    have h2 : numbersIn (strTrim ("Around 5 hours")) = [parseDec ("5")] := rfl
    have h3 : parseDec ("5") = ((5 : ℕ) : ℚ) := rfl
    simp [Nazifa._sleep_hours_to_est, h1, h2, h3]
  · have h1 : Nazifa.sleep_mapping (strTrim ("6-7")) = none := rfl
    have h2 : numbersIn (strTrim ("6-7")) = [parseDec ("6"), parseDec ("7")] := rfl
    have h3 : parseDec ("6") = ((6 : ℕ) : ℚ) := rfl
    have h4 : parseDec ("7") = ((7 : ℕ) : ℚ) := rfl
    simp [Nazifa._sleep_hours_to_est, h1, h2, h3, h4]
    norm_num
  · have h1 : Aelyana.sleep_mapping (strTrim ("6–7")) = none := rfl
    have h2 : numbersIn (dashToHyphen (strTrim ("6–7")))
        = [parseDec ("6"), parseDec ("7")] := rfl
    have h3 : parseDec ("6") = ((6 : ℕ) : ℚ) := rfl
    have h4 : parseDec ("7") = ((7 : ℕ) : ℚ) := rfl
    simp [Aelyana._sleep_hours_to_est, h1, h2, h3, h4]
    norm_num
  · have h1 : Nazifa.sleep_mapping (strTrim ("whenever I can")) = none := rfl
    have h2 : numbersIn (strTrim ("whenever I can")) = [] := rfl
    simp [Nazifa._sleep_hours_to_est, h1, h2]

/-- Witness for C4: the single-number fallback applied to a concrete
lookup miss. -/
theorem duration_fallback_witness :
    Nazifa.sleep_mapping (strTrim ("Around 5 hours")) = none
    ∧ Nazifa._sleep_hours_to_est (some ("Around 5 hours")) = some (parseDec ("5")) :=
  ⟨rfl, (duration_fallback.1 ("Around 5 hours") rfl).2.1 (parseDec ("5")) rfl⟩

/-- C6: on the phrase More than 8 hours the academic-impact estimator
returns 9.0 while the sleep-pattern estimator and the loader estimator
return 8.5, so the estimator variants are not equal as functions. -/
theorem duration_variants_disagree :
    Aelyana._sleep_hours_to_est (some ("More than 8 hours")) = some 9
    ∧ Nazifa._sleep_hours_to_est (some ("More than 8 hours")) = some (17/2)
    ∧ DataLoader._sleep_hours_to_estimate (some ("More than 8 hours")) = some (17/2)
    ∧ Aelyana._sleep_hours_to_est ≠ Nazifa._sleep_hours_to_est := by
  have ha : Aelyana._sleep_hours_to_est (some ("More than 8 hours")) = some 9 := by
    have h1 : Aelyana.sleep_mapping (strTrim ("More than 8 hours")) = some 9.0 := rfl
    simp [Aelyana._sleep_hours_to_est, h1]
    norm_num
  have hn : Nazifa._sleep_hours_to_est (some ("More than 8 hours")) = some (17/2) := by
    have h1 : Nazifa.sleep_mapping (strTrim ("More than 8 hours")) = some 8.5 := rfl
    simp [Nazifa._sleep_hours_to_est, h1]
    norm_num
  have hl : DataLoader._sleep_hours_to_estimate (some ("More than 8 hours"))
      = some (17/2) := by
    have h1 : strContains (DataLoader.normText ("More than 8 hours")) ("more than")
        = true := rfl
    have h2 : intsIn (DataLoader.normText ("More than 8 hours"))
        = [parseDec ("8")] := rfl
    have h3 : parseDec ("8") = ((8 : ℕ) : ℚ) := rfl
    simp [DataLoader._sleep_hours_to_estimate, h1, h2, h3]
    norm_num
  refine ⟨ha, hn, hl, ?_⟩
  intro hEq
  have h5 := congrFun hEq (some ("More than 8 hours"))
  rw [ha, hn] at h5
  have h6 := Option.some.inj h5
  norm_num at h6

/-- C10 counterexample: the phrase more-than-4-but-less-than-6 contains
the substring less than and the integer 4, yet the estimator returns
4.5 — the more-than rule fires first — where the claim's less-than
clause requires 4 − 0.5 = 3.5. -/
theorem loader_less_than_counterexample :
    strContains (DataLoader.normText ("more than 4 but less than 6")) ("less than")
      = true
    ∧ intsIn (DataLoader.normText ("more than 4 but less than 6"))
      = [parseDec ("4"), parseDec ("6")]
    ∧ parseDec ("4") = 4
    ∧ DataLoader._sleep_hours_to_estimate (some ("more than 4 but less than 6"))
      = some (9/2)
    ∧ ¬((9 : ℚ)/2 = 4 - 1/2) := by
  have h3 : parseDec ("4") = ((4 : ℕ) : ℚ) := rfl
  refine ⟨rfl, rfl, by rw [h3]; norm_num, ?_, by norm_num⟩
  have h1 : strContains (DataLoader.normText ("more than 4 but less than 6"))
      ("more than") = true := rfl
  have h2 : intsIn (DataLoader.normText ("more than 4 but less than 6"))
      = [parseDec ("4"), parseDec ("6")] := rfl
  simp [DataLoader._sleep_hours_to_estimate, h1, h2, h3]
  norm_num

/-- C10 (amended): the loader estimator matches qualitative bounds by
substring on the trimmed, lowercased, en-dash-normalized text: a text
containing more than with at least one integer yields first + 0.5; a
text containing less than but not more than (the more-than branch is
checked first) yields first − 0.5; both take priority over the
number-averaging fallback, e.g. more-than-2-to-9-hours gives 2.5, not
the mean 5.5. -/
theorem loader_bound_rules :
    (∀ (s : String) (n : ℚ) (rest : List ℚ),
      strContains (DataLoader.normText s) ("more than") = true →
      intsIn (DataLoader.normText s) = n :: rest →
      DataLoader._sleep_hours_to_estimate (some s) = some (n + 1/2))
    ∧ (∀ (s : String) (n : ℚ) (rest : List ℚ),
      strContains (DataLoader.normText s) ("more than") = false →
      strContains (DataLoader.normText s) ("less than") = true →
      intsIn (DataLoader.normText s) = n :: rest →
      DataLoader._sleep_hours_to_estimate (some s) = some (n - 1/2))
    ∧ DataLoader._sleep_hours_to_estimate (some ("more than 2 to 9 hours"))
      = some (5/2) := by
  refine ⟨?_, ?_, ?_⟩
  · intro s n rest h1 h2
    simp [DataLoader._sleep_hours_to_estimate, h1, h2]
  · intro s n rest h1 h2 h3
    simp [DataLoader._sleep_hours_to_estimate, h1, h2, h3]
  · have h1 : strContains (DataLoader.normText ("more than 2 to 9 hours"))
        ("more than") = true := rfl
    have h2 : intsIn (DataLoader.normText ("more than 2 to 9 hours"))
        = [parseDec ("2"), parseDec ("9")] := rfl
    have h3 : parseDec ("2") = ((2 : ℕ) : ℚ) := rfl
    simp [DataLoader._sleep_hours_to_estimate, h1, h2, h3]
    norm_num

/-- Witness for C10 (amended): the more-than rule at a concrete
phrase. -/
theorem loader_bound_rules_witness :
    strContains (DataLoader.normText ("More than 8 hours")) ("more than") = true
    ∧ intsIn (DataLoader.normText ("More than 8 hours")) = parseDec ("8") :: []
    ∧ DataLoader._sleep_hours_to_estimate (some ("More than 8 hours"))
      = some (parseDec ("8") + 1/2) :=
  ⟨rfl, rfl, loader_bound_rules.1 ("More than 8 hours") (parseDec ("8")) [] rfl rfl⟩

/-- C5 counterexample: on a table with no SleepHours column, the Nazifa
SleepHours_est stage does not skip — it adds a SleepHours_est column of
missing values (the scalar-NaN assignment), so the enriched table does
not simply lack the derived column. -/
theorem missing_column_counterexample :
    (("SleepHours") ∉ headers [(("Gender"), [Cell.txt ("F")])])
    ∧ (("SleepHours_est") ∈
        headers (Nazifa.sleepHoursStage [(("Gender"), [Cell.txt ("F")])]))
    ∧ getCol (Nazifa.sleepHoursStage [(("Gender"), [Cell.txt ("F")])])
        ("SleepHours_est") = [Cell.na] := by
  refine ⟨by decide, by decide, by decide⟩

/-- C5 (amended): when the required SleepHours column is absent no
error is raised, but the stages differ: the Aelyana SleepHours_est
stage skips entirely (the table is unchanged), while the Nazifa stage
adds a SleepHours_est column of all-missing values; likewise the
loader's insomnia-index and lifestyle-risk stages assign all-missing
and all-zero default columns rather than skipping. -/
theorem missing_column_behavior :
    ∀ t : Table, ("SleepHours") ∉ headers t →
      Aelyana.sleepHoursStage t = t
      ∧ ("SleepHours_est") ∈ headers (Nazifa.sleepHoursStage t)
      ∧ getCol (Nazifa.sleepHoursStage t) ("SleepHours_est")
          = List.replicate (nrows t) Cell.na := by
  intro t hmem
  have hc : (headers t).contains ("SleepHours") = false := by
    simp [List.contains, List.elem_eq_mem, hmem]
  refine ⟨?_, ?_, ?_⟩
  · unfold Aelyana.sleepHoursStage
    rw [hc]
    simp
  · unfold Nazifa.sleepHoursStage
    rw [hc]
    simp only [Bool.false_eq_true, if_false]
    exact mem_headers_setCol t _ _
  · unfold Nazifa.sleepHoursStage
    rw [hc]
    simp only [Bool.false_eq_true, if_false]
    exact getCol_setCol t _ _

/-- Witness for C5 (amended): the two stage behaviors at a concrete
one-column table. -/
theorem missing_column_behavior_witness :
    (("SleepHours") ∉ headers [(("Age"), [Cell.txt ("20")])])
    ∧ (Aelyana.sleepHoursStage [(("Age"), [Cell.txt ("20")])]
        = [(("Age"), [Cell.txt ("20")])]
      ∧ ("SleepHours_est") ∈
          headers (Nazifa.sleepHoursStage [(("Age"), [Cell.txt ("20")])])
      ∧ getCol (Nazifa.sleepHoursStage [(("Age"), [Cell.txt ("20")])])
          ("SleepHours_est")
        = List.replicate (nrows [(("Age"), [Cell.txt ("20")])]) Cell.na) :=
  ⟨by decide, missing_column_behavior [(("Age"), [Cell.txt ("20")])] (by decide)⟩

/-- C1 counterexample: the claim's formula — frequency scores plus the
clip-inverted quality risk, rescaled — does not compute the
sleep-pattern (Nazifa) index.  For difficulty Never, wake-ups Never,
quality text 0, the claim's formula (and the loader variant) give
round(4/12·28, 1) = 9.3, but the sleep-pattern variant scores the
quality text by exact lookup and returns 0.0. -/
theorem isi_variant_counterexample :
    Nazifa._calculate_isi_like (some ("Never")) (some ("Never")) (some ("0")) = 0
    ∧ claimedIsiFormula 0 0 (toNum (some ("0"))) = 93/10
    ∧ DataLoader._calculate_isi (some ("Never")) (some ("Never")) (some ("0"))
      = 93/10
    ∧ ((0 : ℚ) ≠ 93/10) := by
  have hqr : DataLoader.quality_risk (some ((0 : ℕ) : ℚ)) = 4 := by
    simp only [DataLoader.quality_risk]
    norm_num [min_def, max_def]
  have hq0 : toNum (some ("0")) = some ((0 : ℕ) : ℚ) := rfl
  refine ⟨?_, ?_, ?_, by norm_num⟩
  · unfold Nazifa._calculate_isi_like
    rw [show (Nazifa.freq_map (cellStr (some ("Never")))
        + Nazifa.freq_map (cellStr (some ("Never")))
        + Nazifa.quality_points (cellStr (some ("0"))) : ℕ) = 0 from rfl]
    rw [show (((0 : ℕ) : ℚ)) / 12 * 28 = 0 by norm_num]
    exact rnd1_of_zero
  · unfold claimedIsiFormula
    rw [hq0, hqr]
    rw [show (((0 + 0 : ℕ) : ℚ) + 4) / 12 * 28 = 28/3 by norm_num]
    exact rnd1_of_third
  · unfold DataLoader._calculate_isi
    rw [show (DataLoader._map_frequency_to_score (cellStr (some ("Never")))
        + DataLoader._map_frequency_to_score (cellStr (some ("Never"))) : ℕ)
        = 0 from rfl]
    rw [hq0, hqr]
    rw [show (((0 : ℕ) : ℚ) + 4) / 12 * 28 = 28/3 by norm_num]
    exact rnd1_of_third

/-- C1 (amended): both 0-28 index variants rescale their raw sum by
round(raw/12·28, 1), always lie within [0, 28], and an all-worst input
(Always-frequencies and quality 1) yields exactly 28.0.  The loader
variant computes exactly the claim's formula — frequency scores plus
clip(5 − q, 0, 4) with missing as 0.  The sleep-pattern (Nazifa)
variant instead scores quality by exact text lookup 1..5; the two
agree on the integer quality texts 1-5 (and on missing/junk), which is
where the claim's clip description holds for it. -/
theorem isi_rescaled :
    (∀ d w q : Option String,
      0 ≤ DataLoader._calculate_isi d w q ∧ DataLoader._calculate_isi d w q ≤ 28)
    ∧ (∀ d w q : Option String,
      0 ≤ Nazifa._calculate_isi_like d w q
        ∧ Nazifa._calculate_isi_like d w q ≤ 28)
    ∧ (∀ d w q : Option String,
      DataLoader._calculate_isi d w q =
        claimedIsiFormula (DataLoader._map_frequency_to_score (cellStr d))
          (DataLoader._map_frequency_to_score (cellStr w)) (toNum q))
    ∧ DataLoader._calculate_isi (some ("Always (every night)"))
        (some ("Always (every night)")) (some ("1")) = 28
    ∧ Nazifa._calculate_isi_like (some ("Always (every night)"))
        (some ("Always (every night)")) (some ("1")) = 28
    ∧ ((Nazifa.quality_points ("1") : ℕ) : ℚ)
        = DataLoader.quality_risk (toNum (some ("1")))
    ∧ ((Nazifa.quality_points ("2") : ℕ) : ℚ)
        = DataLoader.quality_risk (toNum (some ("2")))
    ∧ ((Nazifa.quality_points ("3") : ℕ) : ℚ)
        = DataLoader.quality_risk (toNum (some ("3")))
    ∧ ((Nazifa.quality_points ("4") : ℕ) : ℚ)
        = DataLoader.quality_risk (toNum (some ("4")))
    ∧ ((Nazifa.quality_points ("5") : ℕ) : ℚ)
        = DataLoader.quality_risk (toNum (some ("5"))) := by
  refine ⟨?_, ?_, fun d w q => rfl, ?_, ?_, ?_, ?_, ?_, ?_, ?_⟩
  · intro d w q
    unfold DataLoader._calculate_isi
    apply isi_scale_bounds
    · have h1 := quality_risk_nonneg (toNum q)
      have h2 : (0 : ℚ) ≤ ((DataLoader._map_frequency_to_score (cellStr d)
          + DataLoader._map_frequency_to_score (cellStr w) : ℕ) : ℚ) :=
        Nat.cast_nonneg _
      linarith
    · have h1 : DataLoader._map_frequency_to_score (cellStr d)
          + DataLoader._map_frequency_to_score (cellStr w) ≤ 8 := by
        have h3 := map_frequency_le (cellStr d)
        have h4 := map_frequency_le (cellStr w)
        omega
      have h2 : ((DataLoader._map_frequency_to_score (cellStr d)
          + DataLoader._map_frequency_to_score (cellStr w) : ℕ) : ℚ) ≤ 8 := by
        exact_mod_cast h1
      have h5 := quality_risk_le (toNum q)
      linarith
  · intro d w q
    unfold Nazifa._calculate_isi_like
    apply isi_scale_bounds
    · exact Nat.cast_nonneg _
    · have h1 : Nazifa.freq_map (cellStr d) + Nazifa.freq_map (cellStr w)
          + Nazifa.quality_points (cellStr q) ≤ 12 := by
        have h3 := freq_map_le (cellStr d)
        have h4 := freq_map_le (cellStr w)
        have h5 := quality_points_le (cellStr q)
        omega
      exact_mod_cast h1
  · unfold DataLoader._calculate_isi
    rw [show (DataLoader._map_frequency_to_score (cellStr (some ("Always (every night)")))
        + DataLoader._map_frequency_to_score (cellStr (some ("Always (every night)"))) : ℕ)
        = 8 from rfl]
    rw [show toNum (some ("1")) = some ((1 : ℕ) : ℚ) from rfl]
    rw [show DataLoader.quality_risk (some ((1 : ℕ) : ℚ)) = 4 by
      simp only [DataLoader.quality_risk]; norm_num [min_def, max_def]]
    rw [show (((8 : ℕ) : ℚ) + 4) / 12 * 28 = 28 by norm_num]
    exact rnd1_of_28
  · unfold Nazifa._calculate_isi_like
    rw [show (Nazifa.freq_map (cellStr (some ("Always (every night)")))
        + Nazifa.freq_map (cellStr (some ("Always (every night)")))
        + Nazifa.quality_points (cellStr (some ("1"))) : ℕ) = 12 from rfl]
    rw [show (((12 : ℕ) : ℚ)) / 12 * 28 = 28 by norm_num]
    exact rnd1_of_28
  · rw [show toNum (some ("1")) = some ((1 : ℕ) : ℚ) from rfl,
      show Nazifa.quality_points ("1") = 4 from rfl]
    simp only [DataLoader.quality_risk]
    norm_num [min_def, max_def]
  · rw [show toNum (some ("2")) = some ((2 : ℕ) : ℚ) from rfl,
      show Nazifa.quality_points ("2") = 3 from rfl]
    simp only [DataLoader.quality_risk]
    norm_num [min_def, max_def]
  · rw [show toNum (some ("3")) = some ((3 : ℕ) : ℚ) from rfl,
      show Nazifa.quality_points ("3") = 2 from rfl]
    simp only [DataLoader.quality_risk]
    norm_num [min_def, max_def]
  · rw [show toNum (some ("4")) = some ((4 : ℕ) : ℚ) from rfl,
      show Nazifa.quality_points ("4") = 1 from rfl]
    simp only [DataLoader.quality_risk]
    norm_num [min_def, max_def]
  · rw [show toNum (some ("5")) = some ((5 : ℕ) : ℚ) from rfl,
      show Nazifa.quality_points ("5") = 0 from rfl]
    simp only [DataLoader.quality_risk]
    norm_num [min_def, max_def]

/-- C9: the schema-mapping rename of both cleaning modules is
idempotent on every table — a long-form column is renamed to a
canonical name only when that canonical name is absent, so a second
application renames nothing. -/
theorem schema_mapper_idempotent :
    (∀ t : Table, schemaMap Nazifa.rename_candidates
        (schemaMap Nazifa.rename_candidates t)
      = schemaMap Nazifa.rename_candidates t)
    ∧ (∀ t : Table, schemaMap Aelyana.rename_candidates
        (schemaMap Aelyana.rename_candidates t)
      = schemaMap Aelyana.rename_candidates t) :=
  ⟨fun t => schemaMap_idem candOK_nazifa t,
   fun t => schemaMap_idem candOK_aelyana t⟩

end SurveyPipeline
